import Mathlib

/-!
# Verification of the nova-s3 payment-gated lease protocol

Shallow embedding of the nova-s3 server (TypeScript, Hono) in Lean 4.

Modelling conventions:
* JavaScript strings are modelled as `List Char` (called `JsStr`); all the
  strings the protocol manipulates (wallet addresses, file keys, paths) are
  ASCII, so character-wise operations coincide with the JS ones.
* Times are modelled in milliseconds since the epoch as `Nat`
  (`Date.now()`, `Date.getTime()`).  `Date.setDate(getDate() + d)` adds
  `d` calendar days; with a UTC clock and no leap handling this is exactly
  `d * 86400000` milliseconds, which is how we embed it.
* The SQLite table `files` (src/server/src/auth-store.ts) is modelled as a
  `List FileRecord` in insertion order; `SELECT ... WHERE file_key = ?` on the
  primary key is `List.find?`, `DELETE WHERE file_key = ?` is `List.filter`,
  `ORDER BY uploaded_at DESC` is an insertion sort by the stored
  `uploadedAt` timestamp.
* External capabilities (ECDSA `verifyMessage` from viem, the S3 blob store,
  the x402 settlement facilitator) are inputs of the request handlers: each
  handler takes the *outcome* of the external call as a parameter.
-/

/-! ## JavaScript string primitives -/

/-- JavaScript strings, modelled character-wise. -/
abbrev JsStr := List Char

theorem toNat_ofNatAux (n : Nat) (h : n.isValidChar) :
    (Char.ofNatAux n h).toNat = n := rfl

theorem toNat_ofNat_valid (n : Nat) (h : n.isValidChar) :
    (Char.ofNat n).toNat = n := by
  unfold Char.ofNat
  rw [dif_pos h]
  exact toNat_ofNatAux n h

/-- JS `String.prototype.toLowerCase` on one character (ASCII range, which is all
the protocol ever lowercases: hex wallet addresses). -/
def jsLowerChar (c : Char) : Char :=
  if 65 ≤ c.toNat ∧ c.toNat ≤ 90 then Char.ofNat (c.toNat + 32) else c

/-- JS `String.prototype.toLowerCase` (ASCII). -/
def jsToLower (s : JsStr) : JsStr := s.map jsLowerChar

theorem jsLowerChar_idem (c : Char) : jsLowerChar (jsLowerChar c) = jsLowerChar c := by
  unfold jsLowerChar
  by_cases h : 65 ≤ c.toNat ∧ c.toNat ≤ 90
  · rw [if_pos h]
    have hv : (c.toNat + 32).isValidChar := Or.inl (by omega)
    rw [if_neg]
    rw [toNat_ofNat_valid _ hv]
    omega
  · rw [if_neg h, if_neg h]

theorem jsToLower_idem (s : JsStr) : jsToLower (jsToLower s) = jsToLower s := by
  unfold jsToLower
  rw [List.map_map]
  apply List.map_congr_left
  intro c _
  exact jsLowerChar_idem c

/-- Rendering of a JS number (a `Nat` in our model) into a string, as done by
template interpolation of `Date.now()`. -/
def natToCharsAux : Nat → Nat → List Char
  | 0, _ => []
  | fuel + 1, n =>
    if n < 10 then [Nat.digitChar n]
    else natToCharsAux fuel (n / 10) ++ [Nat.digitChar (n % 10)]

/-- Decimal rendering of a natural number (JS `${n}` for a nonnegative
integer). -/
def natToChars (n : Nat) : List Char := natToCharsAux (n + 1) n

/-- JS `String.prototype.startsWith`. -/
def jsStartsWith (s pfx : JsStr) : Bool := pfx.isPrefixOf s

/-- JS `String.prototype.endsWith`. -/
def jsEndsWith (s suffix : JsStr) : Bool := suffix.isSuffixOf s

/-! ## The lease ledger (src/server/src/auth-store.ts)

`FileRecord` is the row type of the `files` table.  `uploadedAt` and
`expiresAt` are ISO-8601 strings in the source; since ISO strings compare
lexicographically exactly as the instants they denote, we model both columns
directly as millisecond timestamps. -/

structure FileRecord where
  fileKey : JsStr
  ownerAddress : JsStr
  originalFilename : JsStr
  contentType : JsStr
  size : Nat
  uploadedAt : Nat
  expiresAt : Nat
deriving DecidableEq, Repr

/-- The `files` table, in insertion order. -/
abbrev Ledger := List FileRecord

/-- Function `getFile` (auth-store.ts): `SELECT ... FROM files WHERE file_key = ?`
on the primary key. -/
def getFile (db : Ledger) (fileKey : JsStr) : Option FileRecord :=
  db.find? (fun r => r.fileKey == fileKey)

/-- Function `recordUpload` (auth-store.ts): `INSERT INTO files ...` storing
`record.ownerAddress.toLowerCase()`.  `file_key` is the PRIMARY KEY, so an
insert with an existing key throws a SQLite constraint error, which we model
as `Except.error DbError.duplicateKey`; the table is unchanged in that case. -/
inductive DbError where
  | duplicateKey
deriving DecidableEq, Repr

def recordUpload (db : Ledger) (record : FileRecord) : Except DbError Ledger :=
  if db.any (fun r => r.fileKey == record.fileKey) then
    .error .duplicateKey
  else
    .ok (db ++ [{ record with ownerAddress := jsToLower record.ownerAddress }])

/-- Function `isOwner` (auth-store.ts): case-insensitive comparison of the stored
owner against the claimed address. -/
def isOwner (db : Ledger) (fileKey address : JsStr) : Bool :=
  match getFile db fileKey with
  | none => false
  | some record => jsToLower record.ownerAddress == jsToLower address

/-- Function `isExpired` (auth-store.ts): `serverTime > expiresAt`; a missing record
counts as expired. -/
def isExpired (db : Ledger) (fileKey : JsStr) (serverTime : Nat) : Bool :=
  match getFile db fileKey with
  | none => true
  | some record => decide (serverTime > record.expiresAt)

/-- Row ordering used by `ORDER BY uploaded_at DESC`: most recent first. -/
def uploadedDesc (a b : FileRecord) : Prop := b.uploadedAt ≤ a.uploadedAt

instance : DecidableRel uploadedDesc := fun a b => Nat.decLe b.uploadedAt a.uploadedAt

instance : IsTotal FileRecord uploadedDesc :=
  ⟨fun a b => Nat.le_total b.uploadedAt a.uploadedAt⟩

instance : IsTrans FileRecord uploadedDesc :=
  ⟨fun _ _ _ h1 h2 => Nat.le_trans h2 h1⟩

/-- Function `getFilesByOwner` (auth-store.ts):
`SELECT ... WHERE owner_address = ? ORDER BY uploaded_at DESC` with the
bound parameter `ownerAddress.toLowerCase()`. -/
def getFilesByOwner (db : Ledger) (ownerAddress : JsStr) : List FileRecord :=
  List.insertionSort uploadedDesc
    (db.filter (fun r => r.ownerAddress == jsToLower ownerAddress))

/-- Function `deleteRecord` (auth-store.ts): `DELETE FROM files WHERE file_key = ?`;
returns `result.changes > 0`.  A `DELETE` of an absent key is not an error in
SQLite: the statement runs and reports zero changes. -/
def deleteRecord (db : Ledger) (fileKey : JsStr) : Ledger × Bool :=
  (db.filter (fun r => !(r.fileKey == fileKey)),
   db.any (fun r => r.fileKey == fileKey))

/-- Function `cleanupExpiredRecords` (auth-store.ts):
`DELETE FROM files WHERE expires_at < datetime(now)` (SQL quotes elided); returns the number of
removed rows. -/
def cleanupExpiredRecords (db : Ledger) (now : Nat) : Ledger × Nat :=
  let kept := db.filter (fun r => !(decide (r.expiresAt < now)))
  (kept, db.length - kept.length)

/-! ## Server configuration (src/server/src/config.ts)

`config.file.expirationDays` comes from the environment variable
`FILE_EXPIRATION_DAYS` (default `"10"`), `config.file.maxSizeBytes` from
`MAX_FILE_SIZE` (default 1 GB).  We model the configuration as a record so
that claims quantifying over "the configured lease duration" range over all
configurations the code accepts. -/

structure Config where
  expirationDays : Nat
  maxSizeBytes : Nat
deriving DecidableEq, Repr

/-- The configuration when neither environment variable is set. -/
def defaultConfig : Config :=
  { expirationDays := 10, maxSizeBytes := 1000 * 1000 * 1000 }

/-- Conversion of calendar days to milliseconds: `setDate(getDate() + d)` under a UTC clock adds exactly `d` days of
86 400 000 ms each. -/
def daysToMs (d : Nat) : Nat := d * 86400000

/-! ## File-key generation -/

/-- The sanitization `file.name.replace(/[^a-zA-Z0-9._-]/g, "_")` (storage.ts line 46): each
character outside `[a-zA-Z0-9._-]` becomes an underscore. -/
def sanitizeFilename (name : JsStr) : JsStr :=
  name.map fun c => if c.isAlphanum || c == '.' || c == '_' || c == '-' then c else '_'

/-- The inline key template of `POST /upload` (storage.ts line 46):
`` `${walletAddress.toLowerCase()}/${Date.now()}-${file.name.replace(...)}` ``. -/
def uploadFileKey (walletAddress : JsStr) (nowMs : Nat) (filename : JsStr) : JsStr :=
  jsToLower walletAddress ++ "/".data ++ natToChars nowMs ++ "-".data
    ++ sanitizeFilename filename

/-- Function `generateFileKey` of the S3 storage client (src/unnamed/part_006,
lines 41-45): same template, `originalFilename.replace(/[^a-zA-Z0-9._-]/g, "_")`. -/
def generateFileKey (ownerAddress : JsStr) (timestamp : Nat) (originalFilename : JsStr) : JsStr :=
  jsToLower ownerAddress ++ "/".data ++ natToChars timestamp ++ "-".data
    ++ (originalFilename.map fun c =>
          if c.isAlphanum || c == '.' || c == '_' || c == '-' then c else '_')

/-! ## Payment middleware (src/unnamed/part_003, src/server/src/index.ts) -/

/-- The process-wide `paidAddresses : Set<string>` of the payment module. -/
abbrev PaidAddresses := List JsStr

/-- Functions `recordPaid` / `recordPayment`: `paidAddresses.add(address.toLowerCase())`. -/
def recordPaid (s : PaidAddresses) (address : JsStr) : PaidAddresses :=
  if s.contains (jsToLower address) then s else s ++ [jsToLower address]

/-- Functions `hasPaid` / `isAddressPaid`: `paidAddresses.has(address.toLowerCase())`. -/
def hasPaid (s : PaidAddresses) (address : JsStr) : Bool :=
  s.contains (jsToLower address)

/-- The route keys of `createPaymentRoutes` (part_003 lines 39-49). -/
def routeKeys : List JsStr := ["POST /upload".data, "POST /renew/*".data]

/-- One entry of `protectedPaths` (part_003 lines 71-78). -/
structure ProtectedPat where
  pat : JsStr
  isWildcard : Bool
  pfx : JsStr
deriving DecidableEq, Repr

/-- The computation `key.split(" ", 2)[1]` followed by the wildcard analysis
(part_003 lines 71-78): `path.endsWith("/*")` and `path.slice(0, -2)`. -/
def mkProtectedPat (key : JsStr) : ProtectedPat :=
  let path := (key.splitOn ' ').getD 1 []
  { pat := path
    isWildcard := jsEndsWith path "/*".data
    pfx := if jsEndsWith path "/*".data then path.dropLast.dropLast else path }

def protectedPats : List ProtectedPat := routeKeys.map mkProtectedPat

/-- Function `isProtectedPath` (part_003 lines 80-87). -/
def isProtectedPath (requestPath : JsStr) : Bool :=
  protectedPats.any fun p =>
    if p.isWildcard then jsStartsWith requestPath p.pfx else requestPath == p.pat

/-- What the global middleware does with a request before any route handler
runs. -/
inductive GateDecision where
  /-- The request is handed to the x402 `paidAwareMiddleware`. -/
  | paymentGate
  /-- Plain `next()` without any payment check. -/
  | passThrough
deriving DecidableEq, Repr

/-- The `middleware` closure (part_003 lines 89-100), applied to every request
by `app.use("*", paymentMiddleware)` (index.ts).  Its decision reads only
`c.req.path`; the HTTP method and the `paidAddresses` set are visible to it
but unused (`-- All protected operations require payment - no caching`). -/
def middlewareGate (_method : JsStr) (path : JsStr) (_paid : PaidAddresses) : GateDecision :=
  if isProtectedPath path then .paymentGate else .passThrough

/-! ## Route handlers (src/server/src/routes/storage.ts) -/

/-- Outcome of `await verifyMessage(...)` (viem, external): resolved with a
boolean, or threw (malformed signature / message). -/
inductive VerifyOutcome where
  | ok (isValid : Bool)
  | threw
deriving DecidableEq, Repr

/-- Outcome of `await novaS3Client.s3_get(fileKey)`. -/
inductive S3GetOutcome where
  | found (body : List Nat)
  | missing
  | threw
deriving DecidableEq, Repr

/-- The distinct responses the storage routes can produce, one constructor per
`return c.json(...)` / `c.body(...)` site (plus `conflict`, the 409 outcome
class of the spec's error taxonomy, which no route produces). -/
inductive RouteResponse where
  /-- Status 400, `Missing X-Wallet-Address header`. -/
  | missingWallet
  /-- Status 400, `Missing X-Signature header`. -/
  | missingSignature
  /-- Status 400, `No file provided`. -/
  | noFile
  /-- Status 400, `File too large`. -/
  | fileTooLarge
  /-- Status 401, `Invalid signature` (verification resolved `false`). -/
  | invalidSignature
  /-- Status 401, `Signature verification failed` (verification threw). -/
  | sigVerificationFailed
  /-- Status 402, Payment Challenge (emitted by the x402 middleware; modelled from the spec). -/
  | paymentChallenge
  /-- Status 403, `Access denied: not the owner`. -/
  | accessDenied
  /-- Status 404, `File not found` (no ledger row). -/
  | fileNotFound
  /-- Status 404, `File not found in storage` (ledger row but no blob). -/
  | fileNotFoundStorage
  /-- Status 409, the `Conflict` class of the spec taxonomy; no route returns it. -/
  | conflict
  /-- Status 410, `File has expired`. -/
  | fileExpired
  /-- Status 500, `Failed to upload to S3`. -/
  | s3UploadFailed
  /-- Status 500, `Failed to upload file` (catch-all of POST /upload). -/
  | uploadFailed
  /-- Status 500, `Failed to download file` (catch of GET /file). -/
  | downloadFailed
  /-- Status 500, `Failed to delete file` (catch of DELETE /file). -/
  | deleteFailed
  /-- Status 200, response of POST /upload. -/
  | uploadOk (fileKey : JsStr) (size : Nat) (uploadedAt expiresAt : Nat)
  /-- Status 200, response of GET /file. -/
  | downloadOk (body : List Nat) (contentType : JsStr) (filename : JsStr) (expiresAt : Nat)
  /-- Status 200, response of GET /files. -/
  | listOk (files : List FileRecord) (total : Nat)
  /-- Status 200, response of GET /file-info. -/
  | infoOk (record : FileRecord) (expired : Bool)
  /-- Status 200, response of DELETE /file. -/
  | deleteOk (fileKey : JsStr)
  /-- Status 200, response of POST /renew. -/
  | renewOk (fileKey : JsStr) (oldExpires newExpires : Nat)
deriving DecidableEq, Repr

/-- The HTTP status attached to each response site. -/
def statusCode : RouteResponse → Nat
  | .missingWallet => 400
  | .missingSignature => 400
  | .noFile => 400
  | .fileTooLarge => 400
  | .invalidSignature => 401
  | .sigVerificationFailed => 401
  | .paymentChallenge => 402
  | .accessDenied => 403
  | .fileNotFound => 404
  | .fileNotFoundStorage => 404
  | .conflict => 409
  | .fileExpired => 410
  | .s3UploadFailed => 500
  | .uploadFailed => 500
  | .downloadFailed => 500
  | .deleteFailed => 500
  | .uploadOk _ _ _ _ => 200
  | .downloadOk _ _ _ _ => 200
  | .listOk _ _ => 200
  | .infoOk _ _ => 200
  | .deleteOk _ => 200
  | .renewOk _ _ _ => 200

/-- The multipart `file` field of an upload request. -/
structure UploadFile where
  name : JsStr
  size : Nat
  fileType : JsStr
deriving DecidableEq, Repr

/-- Handler of `POST /upload` (storage.ts lines 20-92), after the payment
middleware has let the request through.  `s3PutOk` is the outcome of
`novaS3Client.s3_put`; `now` is the server clock (`Date.now()` /
`new Date()`).  A thrown SQLite duplicate-key error lands in the
surrounding `catch` and becomes the generic 500 `uploadFailed` response. -/
def uploadHandler (cfg : Config) (db : Ledger) (wallet : Option JsStr)
    (file : Option UploadFile) (s3PutOk : Bool) (now : Nat) :
    RouteResponse × Ledger :=
  match wallet with
  | none => (.missingWallet, db)
  | some walletAddress =>
    match file with
    | none => (.noFile, db)
    | some f =>
      if f.size > cfg.maxSizeBytes then (.fileTooLarge, db)
      else
        let fileKey := uploadFileKey walletAddress now f.name
        if !s3PutOk then (.s3UploadFailed, db)
        else
          let expiresAt := now + daysToMs cfg.expirationDays
          match recordUpload db
              { fileKey := fileKey, ownerAddress := walletAddress,
                originalFilename := f.name, contentType := f.fileType,
                size := f.size, uploadedAt := now, expiresAt := expiresAt } with
          | .error _ => (.uploadFailed, db)
          | .ok db2 => (.uploadOk fileKey f.size now expiresAt, db2)

/-- Handler of `GET /file/:key` (storage.ts lines 106-172).  `verify` is the
outcome of `verifyMessage` over the file key; `s3` the outcome of
`novaS3Client.s3_get`. -/
def downloadHandler (db : Ledger) (fileKey : JsStr) (wallet sig : Option JsStr)
    (verify : VerifyOutcome) (s3 : S3GetOutcome) (now : Nat) :
    RouteResponse × Ledger :=
  match wallet with
  | none => (.missingWallet, db)
  | some walletAddress =>
    match sig with
    | none => (.missingSignature, db)
    | some _ =>
      match verify with
      | .threw => (.sigVerificationFailed, db)
      | .ok false => (.invalidSignature, db)
      | .ok true =>
        match getFile db fileKey with
        | none => (.fileNotFound, db)
        | some record =>
          if !(isOwner db fileKey walletAddress) then (.accessDenied, db)
          else if isExpired db fileKey now then
            (.fileExpired, (deleteRecord db fileKey).1)
          else
            match s3 with
            | .threw => (.downloadFailed, db)
            | .missing => (.fileNotFoundStorage, (deleteRecord db fileKey).1)
            | .found body =>
              (.downloadOk body record.contentType record.originalFilename
                 record.expiresAt, db)

/-- Handler of `GET /files` (storage.ts lines 182-230): signature over
`list-files`, then `getFilesByOwner` filtered by
`serverTime <= expiresAt`. -/
def listFilesHandler (db : Ledger) (wallet sig : Option JsStr)
    (verify : VerifyOutcome) (now : Nat) : RouteResponse :=
  match wallet with
  | none => .missingWallet
  | some walletAddress =>
    match sig with
    | none => .missingSignature
    | some _ =>
      match verify with
      | .threw => .sigVerificationFailed
      | .ok false => .invalidSignature
      | .ok true =>
        let files := getFilesByOwner db walletAddress
        let activeFiles := files.filter fun f => decide (now ≤ f.expiresAt)
        .listOk activeFiles activeFiles.length

/-- Handler of `GET /file-info/:key` (storage.ts lines 240-289). -/
def fileInfoHandler (db : Ledger) (fileKey : JsStr) (wallet sig : Option JsStr)
    (verify : VerifyOutcome) (now : Nat) : RouteResponse :=
  match wallet with
  | none => .missingWallet
  | some walletAddress =>
    match sig with
    | none => .missingSignature
    | some _ =>
      match verify with
      | .threw => .sigVerificationFailed
      | .ok false => .invalidSignature
      | .ok true =>
        match getFile db fileKey with
        | none => .fileNotFound
        | some record =>
          if !(isOwner db fileKey walletAddress) then .accessDenied
          else .infoOk record (isExpired db fileKey now)

/-- Handler of `DELETE /file/:key` (storage.ts lines 302-365): signature over
`delete:` + key.  `s3Threw` is whether `novaS3Client.s3_delete` threw (a
`false` return only logs a warning and the ledger delete still runs). -/
def deleteHandler (db : Ledger) (fileKey : JsStr) (wallet sig : Option JsStr)
    (verify : VerifyOutcome) (s3Threw : Bool) : RouteResponse × Ledger :=
  match wallet with
  | none => (.missingWallet, db)
  | some walletAddress =>
    match sig with
    | none => (.missingSignature, db)
    | some _ =>
      match verify with
      | .threw => (.sigVerificationFailed, db)
      | .ok false => (.invalidSignature, db)
      | .ok true =>
        match getFile db fileKey with
        | none => (.fileNotFound, db)
        | some _ =>
          if !(isOwner db fileKey walletAddress) then (.accessDenied, db)
          else if s3Threw then (.deleteFailed, db)
          else (.deleteOk fileKey, (deleteRecord db fileKey).1)

/-- The renewal duration hardcoded at storage.ts line 405:
`newExpires.setDate(newExpires.getDate() + 10)` — ten days, independent of
`config.file.expirationDays`. -/
def renewDaysLiteral : Nat := 10

/-- Handler of `POST /renew/:key` (storage.ts lines 368-410), after the payment
middleware has let the request through: signature over `renew:` + key,
existence and ownership checks, then
`newExpires = max(serverTime, oldExpires) + 10 days` written back with
`UPDATE files SET expires_at = ? WHERE file_key = ?`. -/
def renewHandler (db : Ledger) (fileKey : JsStr) (wallet sig : Option JsStr)
    (verify : VerifyOutcome) (now : Nat) : RouteResponse × Ledger :=
  match wallet with
  | none => (.missingWallet, db)
  | some walletAddress =>
    match sig with
    | none => (.missingSignature, db)
    | some _ =>
      match verify with
      | .threw => (.sigVerificationFailed, db)
      | .ok false => (.invalidSignature, db)
      | .ok true =>
        match getFile db fileKey with
        | none => (.fileNotFound, db)
        | some record =>
          if !(isOwner db fileKey walletAddress) then (.accessDenied, db)
          else
            let newExpires := max now record.expiresAt + daysToMs renewDaysLiteral
            (.renewOk fileKey record.expiresAt newExpires,
             db.map fun r =>
               if r.fileKey == fileKey then { r with expiresAt := newExpires } else r)

/-! ## Full request pipelines (middleware + handler)

`src/server/src/index.ts` installs the payment middleware with
`app.use("*", paymentMiddleware)` *before* mounting the storage routes, so on
every request the middleware's gate decision runs first and the route handler
only ever runs as the middleware's continuation. -/

/-- Modelled from the spec: the x402 `paymentMiddleware` of `@x402/hono` is an
external package, absent from this repository.  Per the spec (§4.4 operation 1
and 6, §6), on a protected route it emits a 402 Payment Challenge and halts
when the request carries no Payment Proof whose settlement verifies, and runs
the inner handler (`next`) when settlement verifies.  `settled` is the outcome
of that settlement verification; the inner handler is passed as a thunk over
the ledger. -/
def paidAwareMiddleware (settled : Bool) (db : Ledger)
    (next : Ledger → RouteResponse × Ledger) : RouteResponse × Ledger :=
  if settled then next db else (.paymentChallenge, db)

/-- The Hono request path of `POST /renew/:key{.+}` for a given key. -/
def renewPath (fileKey : JsStr) : JsStr := "/renew/".data ++ fileKey

/-- End-to-end `POST /renew/{key}` request: global payment middleware, then
the route handler. -/
def renewPipeline (db : Ledger) (fileKey : JsStr) (wallet sig : Option JsStr)
    (verify : VerifyOutcome) (paid : PaidAddresses) (settled : Bool)
    (now : Nat) : RouteResponse × Ledger :=
  match middlewareGate "POST".data (renewPath fileKey) paid with
  | .paymentGate =>
    paidAwareMiddleware settled db fun db2 =>
      renewHandler db2 fileKey wallet sig verify now
  | .passThrough => renewHandler db fileKey wallet sig verify now

/-- End-to-end `POST /upload` request: global payment middleware, then the
route handler. -/
def uploadPipeline (cfg : Config) (db : Ledger) (wallet : Option JsStr)
    (file : Option UploadFile) (s3PutOk : Bool) (paid : PaidAddresses)
    (settled : Bool) (now : Nat) : RouteResponse × Ledger :=
  match middlewareGate "POST".data "/upload".data paid with
  | .paymentGate =>
    paidAwareMiddleware settled db fun db2 =>
      uploadHandler cfg db2 wallet file s3PutOk now
  | .passThrough => uploadHandler cfg db wallet file s3PutOk now

/-! ## Shared lemmas -/

/-- The two protected-path patterns, as `createPaymentMiddleware` computes
them at startup. -/
theorem protectedPats_eval :
    protectedPats =
      [{ pat := "/upload".data, isWildcard := false, pfx := "/upload".data },
       { pat := "/renew/*".data, isWildcard := true, pfx := "/renew".data }] := by
  decide

/-- Closed form of `isProtectedPath`: equality with `/upload` or the
`/renew` literal as a path head. -/
theorem isProtectedPath_iff (p : JsStr) :
    isProtectedPath p = (p == "/upload".data || jsStartsWith p "/renew".data) := by
  unfold isProtectedPath
  rw [protectedPats_eval]
  simp [List.any_cons, List.any_nil]

/-- Every `POST /renew/:key` request path is protected. -/
theorem isProtectedPath_renewPath (k : JsStr) :
    isProtectedPath (renewPath k) = true := by
  rw [isProtectedPath_iff]
  have h : jsStartsWith (renewPath k) "/renew".data = true := rfl
  rw [h]
  simp

/-- The upload path is protected. -/
theorem isProtectedPath_upload : isProtectedPath "/upload".data = true := by decide

/-- Sample ledger row used by concrete witnesses: a file owned by `0xaa`,
uploaded at 1 ms, expiring at day 10. -/
def sampleOwnedRecord : FileRecord :=
  { fileKey := "0xaa/1-a.txt".data
    ownerAddress := "0xaa".data
    originalFilename := "a.txt".data
    contentType := "text/plain".data
    size := 5
    uploadedAt := 1
    expiresAt := 864000000 }

/-! ## Claims -/

/-- C9: the payment-protection decision depends only on the request path and
not on the HTTP method: the gate is applied exactly when the path equals
`/upload` or starts with `/renew`; in particular a GET request to `/upload`
and a request to `/renewals` are also routed through the payment
middleware. -/
theorem C9_payment_gate_depends_only_on_path :
    (∀ p : JsStr, isProtectedPath p = (p == "/upload".data || jsStartsWith p "/renew".data))
    ∧ (∀ method1 method2 p : JsStr, ∀ s1 s2 : PaidAddresses,
        middlewareGate method1 p s1 = middlewareGate method2 p s2)
    ∧ middlewareGate "GET".data "/upload".data [] = .paymentGate
    ∧ middlewareGate "POST".data "/renewals".data [] = .paymentGate := by
  refine ⟨isProtectedPath_iff, ?_, ?_, ?_⟩
  · intro _ _ _ _ _
    rfl
  · decide
  · decide

/-- C4: whether the payment gate is applied never depends on the process-wide
`paidAddresses` set — runs differing only in which identities previously paid
gate identically, arbitrary `recordPaid` histories do not change the
decision, and a priced (protected) request is always routed through the
payment gate; concretely, an unsettled upload or renewal by a wallet that is
already in `paidAddresses` still receives the 402 challenge. -/
theorem C4_payment_gate_ignores_paid_addresses :
    (∀ method p : JsStr, ∀ s1 s2 : PaidAddresses,
        middlewareGate method p s1 = middlewareGate method p s2)
    ∧ (∀ method p : JsStr, ∀ s : PaidAddresses, ∀ ops : List JsStr,
        middlewareGate method p (ops.foldl recordPaid s) = middlewareGate method p s)
    ∧ (∀ method p : JsStr, ∀ s : PaidAddresses,
        isProtectedPath p = true → middlewareGate method p s = .paymentGate)
    ∧ (∀ cfg : Config, ∀ db : Ledger, ∀ wallet : JsStr, ∀ file : Option UploadFile,
        ∀ s3PutOk : Bool, ∀ s : PaidAddresses, ∀ now : Nat,
        uploadPipeline cfg db (some wallet) file s3PutOk (recordPaid s wallet) false now =
          (.paymentChallenge, db))
    ∧ (∀ db : Ledger, ∀ fileKey : JsStr, ∀ wallet : JsStr, ∀ sig : Option JsStr,
        ∀ verify : VerifyOutcome, ∀ s : PaidAddresses, ∀ now : Nat,
        renewPipeline db fileKey (some wallet) sig verify (recordPaid s wallet) false now =
          (.paymentChallenge, db)) := by
  refine ⟨fun _ _ _ _ => rfl, fun _ _ _ _ => rfl, ?_, ?_, ?_⟩
  · intro method p s hp
    unfold middlewareGate
    rw [hp]
    rfl
  · intro cfg db wallet file s3PutOk s now
    unfold uploadPipeline middlewareGate
    rw [isProtectedPath_upload]
    rfl
  · intro db fileKey wallet sig verify s now
    unfold renewPipeline middlewareGate
    rw [isProtectedPath_renewPath]
    rfl

/-- C4 witness: the third conjunct at a concrete protected path and a
nonempty paid set. -/
theorem C4_witness :
    middlewareGate "POST".data "/upload".data ["0xaa".data] = .paymentGate :=
  C4_payment_gate_ignores_paid_addresses.2.2.1 "POST".data "/upload".data
    ["0xaa".data] (by decide)

/-- C1 counterexample: a `POST /renew/{key}` request for an existing key by a
non-owner (`0xbb` renews the file of `0xaa`) with a valid signature but no
payment proof attached is answered with the 402 Payment Challenge, not the
claimed 403: the global payment middleware runs before the route handler that
contains the ownership check. -/
theorem C1_counterexample :
    renewPipeline [sampleOwnedRecord] "0xaa/1-a.txt".data (some "0xbb".data)
        (some "sig".data) (.ok true) [] false 0 =
      (.paymentChallenge, [sampleOwnedRecord])
    ∧ statusCode .paymentChallenge = 402
    ∧ RouteResponse.paymentChallenge ≠ .accessDenied
    ∧ getFile [sampleOwnedRecord] "0xaa/1-a.txt".data = some sampleOwnedRecord
    ∧ isOwner [sampleOwnedRecord] "0xaa/1-a.txt".data "0xbb".data = false := by
  decide

/-- C1 (amended): for `POST /renew/{key}` payment is requested *before*
ownership is checked — a renewal request without a settled payment proof is
answered 402 regardless of the caller's identity and of ownership, the ledger
untouched; the 403 ownership rejection can only be reached after payment has
settled. -/
theorem C1_renew_payment_precedes_ownership
    (db : Ledger) (fileKey : JsStr) (wallet sig : Option JsStr)
    (verify : VerifyOutcome) (paid : PaidAddresses) (now : Nat) :
    renewPipeline db fileKey wallet sig verify paid false now =
      (.paymentChallenge, db)
    ∧ (∀ settled : Bool,
        (renewPipeline db fileKey wallet sig verify paid settled now).1 =
          .accessDenied → settled = true) := by
  have hgate : middlewareGate "POST".data (renewPath fileKey) paid = .paymentGate := by
    unfold middlewareGate
    rw [isProtectedPath_renewPath]
    rfl
  constructor
  · unfold renewPipeline
    rw [hgate]
    rfl
  · intro settled h
    cases settled with
    | true => rfl
    | false =>
      unfold renewPipeline at h
      rw [hgate] at h
      simp [paidAwareMiddleware] at h

/-- C1 witness: the amended theorem applied at a concrete non-owner request
with no payment attached. -/
theorem C1_witness :
    renewPipeline [sampleOwnedRecord] "0xaa/1-a.txt".data (some "0xbb".data)
        (some "sig".data) (.ok true) [] false 7 =
      (.paymentChallenge, [sampleOwnedRecord]) :=
  (C1_renew_payment_precedes_ownership [sampleOwnedRecord] "0xaa/1-a.txt".data
    (some "0xbb".data) (some "sig".data) (.ok true) [] 7).1

/-- C2 counterexample: with the lease duration configured to 5 days
(`FILE_EXPIRATION_DAYS=5`), an owner renewal of a record whose expiry has
passed (expiry 0, now 0) yields a new expiry of 864 000 000 ms = 10 days —
the renewal route hardcodes ten days and ignores the configured duration, so
the new expiry is not `max(now, currentExpiresAt) + leaseDuration`. -/
theorem C2_counterexample :
    (renewHandler
        [{ fileKey := "0xaa/1-a.txt".data, ownerAddress := "0xaa".data,
           originalFilename := "a.txt".data, contentType := "text/plain".data,
           size := 5, uploadedAt := 1, expiresAt := 0 }]
        "0xaa/1-a.txt".data (some "0xaa".data) (some "sig".data)
        (.ok true) 0).1 =
      .renewOk "0xaa/1-a.txt".data 0 864000000
    ∧ (864000000 : Nat) ≠
        max 0 0 + daysToMs (Config.expirationDays
          { expirationDays := 5, maxSizeBytes := 1000000000 }) := by
  decide

/-- C2 (amended): for every renewal of an existing record owned by the
caller, the new expiry equals `max(now, currentExpiresAt)` plus ten days
(hardcoded; this is the configured lease duration only when
`FILE_EXPIRATION_DAYS` keeps its default 10), and monotonicity holds: the new
expiry is at least the old one and at least `now` plus ten days. -/
theorem C2_renewal_extends_ten_days
    (db : Ledger) (fileKey : JsStr) (walletAddress sig : JsStr) (now : Nat)
    (record : FileRecord) (hget : getFile db fileKey = some record)
    (hown : isOwner db fileKey walletAddress = true) :
    (renewHandler db fileKey (some walletAddress) (some sig) (.ok true) now).1 =
      .renewOk fileKey record.expiresAt
        (max now record.expiresAt + daysToMs renewDaysLiteral)
    ∧ record.expiresAt ≤ max now record.expiresAt + daysToMs renewDaysLiteral
    ∧ now + daysToMs renewDaysLiteral ≤
        max now record.expiresAt + daysToMs renewDaysLiteral := by
  refine ⟨?_, ?_, ?_⟩
  · simp [renewHandler, hget, hown]
  · have := Nat.le_max_right now record.expiresAt
    omega
  · have := Nat.le_max_left now record.expiresAt
    omega

/-- C2 witness: the amended theorem at a concrete not-yet-expired record
(expiry at day 10, renewal at day 2 yields expiry at day 20). -/
theorem C2_witness :
    (renewHandler [sampleOwnedRecord] "0xaa/1-a.txt".data (some "0xAA".data)
        (some "sig".data) (.ok true) 172800000).1 =
      .renewOk "0xaa/1-a.txt".data 864000000 1728000000
    ∧ (864000000 : Nat) ≤ 1728000000
    ∧ (172800000 + daysToMs renewDaysLiteral : Nat) ≤ 1728000000 :=
  C2_renewal_extends_ten_days [sampleOwnedRecord] "0xaa/1-a.txt".data
    "0xAA".data "sig".data 172800000 sampleOwnedRecord (by decide) (by decide)

/-- The key format exactly as claim C3 words it: lowercased identity, slash,
millisecond timestamp, dash, then the filename with *every* non-alphanumeric
character replaced by an underscore. -/
def claimedFileKeyC3 (identity : JsStr) (nowMs : Nat) (filename : JsStr) : JsStr :=
  jsToLower identity ++ "/".data ++ natToChars nowMs ++ "-".data
    ++ filename.map fun c => if c.isAlphanum then c else '_'

/-- The key format with the amendment: `.`, `_` and `-` also survive the
filename sanitization (the regex class is `[^a-zA-Z0-9._-]`, not
`[^a-zA-Z0-9]`). -/
def amendedFileKeyC3 (identity : JsStr) (nowMs : Nat) (filename : JsStr) : JsStr :=
  jsToLower identity ++ "/".data ++ natToChars nowMs ++ "-".data
    ++ filename.map fun c =>
        if c.isAlphanum || c == '.' || c == '_' || c == '-' then c else '_'

/-- C3 counterexample: uploading `a.b` as `0xAB` at timestamp 5 produces the
key `0xab/5-a.b` — the dot survives — while the claimed format demands
`0xab/5-a_b`. -/
theorem C3_counterexample :
    uploadFileKey "0xAB".data 5 "a.b".data = "0xab/5-a.b".data
    ∧ claimedFileKeyC3 "0xAB".data 5 "a.b".data = "0xab/5-a_b".data
    ∧ uploadFileKey "0xAB".data 5 "a.b".data ≠
        claimedFileKeyC3 "0xAB".data 5 "a.b".data := by
  decide

/-- C3 (amended): for every successful upload with claimed identity `A` and
original filename `N`, the generated key is lowercase(A), `/`, the server's
millisecond timestamp, `-`, then `N` with every character outside
`[a-zA-Z0-9._-]` replaced by an underscore; the route's inline template
agrees with the storage client's `generateFileKey`, and every character of
the sanitized filename is alphanumeric or one of `.`, `_`, `-`. -/
theorem C3_upload_key_format (A : JsStr) (t : Nat) (N : JsStr) :
    uploadFileKey A t N = amendedFileKeyC3 A t N
    ∧ uploadFileKey A t N = generateFileKey A t N
    ∧ (∀ c ∈ sanitizeFilename N,
        (c.isAlphanum || c == '.' || c == '_' || c == '-') = true)
    ∧ (∀ cfg : Config, ∀ db db2 : Ledger, ∀ f : UploadFile, ∀ s3PutOk : Bool,
        ∀ key : JsStr, ∀ sz up exp : Nat,
        uploadHandler cfg db (some A) (some f) s3PutOk t =
          (.uploadOk key sz up exp, db2) →
        key = uploadFileKey A t f.name) := by
  refine ⟨rfl, rfl, ?_, ?_⟩
  · intro c hc
    unfold sanitizeFilename at hc
    obtain ⟨c0, _, hc0⟩ := List.mem_map.1 hc
    by_cases h : (c0.isAlphanum || c0 == '.' || c0 == '_' || c0 == '-') = true
    · rw [if_pos h] at hc0
      rw [← hc0]
      exact h
    · rw [if_neg h] at hc0
      rw [← hc0]
      decide
  · intro cfg db db2 f s3PutOk key sz up exp h
    simp only [uploadHandler] at h
    by_cases hs : f.size > cfg.maxSizeBytes
    · rw [if_pos hs] at h
      simp at h
    · rw [if_neg hs] at h
      cases s3PutOk with
      | false => simp at h
      | true =>
        simp only [Bool.not_true, if_neg] at h
        rcases h2 : recordUpload db
            { fileKey := uploadFileKey A t f.name, ownerAddress := A,
              originalFilename := f.name, contentType := f.fileType,
              size := f.size, uploadedAt := t,
              expiresAt := t + daysToMs cfg.expirationDays } with e | db3 <;>
          rw [h2] at h <;> simp at h
        exact h.1.1.symm

/-- C3 witness: the handler-level conjunct at a concrete successful upload. -/
theorem C3_witness :
    "0xab/5-a.b".data = uploadFileKey "0xAB".data 5 "a.b".data :=
  (C3_upload_key_format "0xAB".data 5 "a.b".data).2.2.2 defaultConfig []
    [{ fileKey := "0xab/5-a.b".data, ownerAddress := "0xab".data,
       originalFilename := "a.b".data, contentType := "text/plain".data,
       size := 5, uploadedAt := 5, expiresAt := 5 + daysToMs 10 }]
    { name := "a.b".data, size := 5, fileType := "text/plain".data } true
    "0xab/5-a.b".data 5 5 (5 + daysToMs 10) (by decide)

/-- C5: a successful `GET /files` for identity `A` returns only records whose
stored owner is lowercase(A), ordered most-recently-uploaded first, and never
contains a record whose expiry has passed at call time — the expiry filter
runs against server time on every call, independent of the periodic sweep. -/
theorem C5_list_excludes_expired_sorted
    (db : Ledger) (A sig : JsStr) (now : Nat) (files : List FileRecord)
    (total : Nat)
    (h : listFilesHandler db (some A) (some sig) (.ok true) now =
      .listOk files total) :
    (∀ r ∈ files, r.ownerAddress = jsToLower A ∧ ¬ (r.expiresAt < now))
    ∧ List.Sorted uploadedDesc files
    ∧ total = files.length := by
  simp only [listFilesHandler, RouteResponse.listOk.injEq] at h
  obtain ⟨hfiles, htotal⟩ := h
  subst hfiles
  refine ⟨?_, ?_, htotal.symm⟩
  · intro r hr
    rw [List.mem_filter] at hr
    obtain ⟨hmem, hkeep⟩ := hr
    rw [getFilesByOwner, List.mem_insertionSort, List.mem_filter] at hmem
    refine ⟨eq_of_beq hmem.2, ?_⟩
    have := of_decide_eq_true hkeep
    omega
  · exact List.Pairwise.sublist (List.filter_sublist _)
      (List.sorted_insertionSort uploadedDesc _)

/-- C5 witness: three files of `0xaa` (uploaded at 1, 2, 3; the third already
expired at call time 3) and one file of another owner; the listing returns
the two live `0xaa` files, newest first. -/
theorem C5_witness :
    (∀ r ∈ [({ fileKey := "0xaa/2-b.txt".data, ownerAddress := "0xaa".data,
               originalFilename := "b.txt".data, contentType := "text/plain".data,
               size := 2, uploadedAt := 2, expiresAt := 100 } : FileRecord),
             { fileKey := "0xaa/1-a.txt".data, ownerAddress := "0xaa".data,
               originalFilename := "a.txt".data, contentType := "text/plain".data,
               size := 1, uploadedAt := 1, expiresAt := 5 }],
        r.ownerAddress = jsToLower "0xAA".data ∧ ¬ (r.expiresAt < 3))
    ∧ List.Sorted uploadedDesc
        [({ fileKey := "0xaa/2-b.txt".data, ownerAddress := "0xaa".data,
            originalFilename := "b.txt".data, contentType := "text/plain".data,
            size := 2, uploadedAt := 2, expiresAt := 100 } : FileRecord),
         { fileKey := "0xaa/1-a.txt".data, ownerAddress := "0xaa".data,
           originalFilename := "a.txt".data, contentType := "text/plain".data,
           size := 1, uploadedAt := 1, expiresAt := 5 }]
    ∧ (2 : Nat) = List.length
        [({ fileKey := "0xaa/2-b.txt".data, ownerAddress := "0xaa".data,
            originalFilename := "b.txt".data, contentType := "text/plain".data,
            size := 2, uploadedAt := 2, expiresAt := 100 } : FileRecord),
         { fileKey := "0xaa/1-a.txt".data, ownerAddress := "0xaa".data,
           originalFilename := "a.txt".data, contentType := "text/plain".data,
           size := 1, uploadedAt := 1, expiresAt := 5 }] :=
  C5_list_excludes_expired_sorted
    [{ fileKey := "0xaa/1-a.txt".data, ownerAddress := "0xaa".data,
       originalFilename := "a.txt".data, contentType := "text/plain".data,
       size := 1, uploadedAt := 1, expiresAt := 5 },
     { fileKey := "0xbb/1-c.txt".data, ownerAddress := "0xbb".data,
       originalFilename := "c.txt".data, contentType := "text/plain".data,
       size := 3, uploadedAt := 1, expiresAt := 100 },
     { fileKey := "0xaa/2-b.txt".data, ownerAddress := "0xaa".data,
       originalFilename := "b.txt".data, contentType := "text/plain".data,
       size := 2, uploadedAt := 2, expiresAt := 100 },
     { fileKey := "0xaa/3-d.txt".data, ownerAddress := "0xaa".data,
       originalFilename := "d.txt".data, contentType := "text/plain".data,
       size := 4, uploadedAt := 3, expiresAt := 1 }]
    "0xAA".data "sig".data 3 _ 2 (by decide)

/-- C6 counterexample: uploading a file whose generated key already exists in
the ledger fails — but as the generic 500 `Failed to upload file` catch-all
response, not as a distinct Conflict outcome: the duplicate-key error thrown
by the `INSERT` is swallowed by the route's `try/catch`. -/
theorem C6_counterexample :
    uploadHandler defaultConfig [sampleOwnedRecord] (some "0xAA".data)
        (some { name := "a.txt".data, size := 5, fileType := "text/plain".data })
        true 1 =
      (.uploadFailed, [sampleOwnedRecord])
    ∧ RouteResponse.uploadFailed ≠ .conflict
    ∧ statusCode .uploadFailed = 500
    ∧ statusCode .uploadFailed = statusCode .downloadFailed := by
  decide

/-- C6 (amended): a duplicate-key create fails and leaves the ledger
unchanged, and a fresh-key create inserts a record expiring exactly
`leaseDuration` after `now` — but the duplicate failure is surfaced as the
generic 500 upload failure, indistinguishable from any other upload error,
rather than as a distinct Conflict outcome class. -/
theorem C6_create_duplicate_is_generic_failure
    (cfg : Config) (db : Ledger) (wallet : JsStr) (f : UploadFile) (now : Nat)
    (hsize : ¬ (f.size > cfg.maxSizeBytes)) :
    (db.any (fun r => r.fileKey == uploadFileKey wallet now f.name) = true →
      uploadHandler cfg db (some wallet) (some f) true now = (.uploadFailed, db)
      ∧ RouteResponse.uploadFailed ≠ .conflict)
    ∧ (db.any (fun r => r.fileKey == uploadFileKey wallet now f.name) = false →
      uploadHandler cfg db (some wallet) (some f) true now =
        (.uploadOk (uploadFileKey wallet now f.name) f.size now
           (now + daysToMs cfg.expirationDays),
         db ++ [{ fileKey := uploadFileKey wallet now f.name,
                  ownerAddress := jsToLower wallet,
                  originalFilename := f.name, contentType := f.fileType,
                  size := f.size, uploadedAt := now,
                  expiresAt := now + daysToMs cfg.expirationDays }])) := by
  constructor
  · intro hdup
    constructor
    · simp only [uploadHandler, if_neg hsize]
      simp [recordUpload, hdup]
    · simp
  · intro hfresh
    simp only [uploadHandler, if_neg hsize]
    simp [recordUpload, hfresh]

/-- C6 witness: the amended theorem at a fresh upload into an empty ledger
and at a duplicate upload of the same key. -/
theorem C6_witness :
    (uploadHandler defaultConfig [] (some "0xAA".data)
        (some { name := "a.txt".data, size := 5, fileType := "text/plain".data })
        true 1 =
      (.uploadOk "0xaa/1-a.txt".data 5 1 (1 + daysToMs 10),
       [{ fileKey := "0xaa/1-a.txt".data, ownerAddress := "0xaa".data,
          originalFilename := "a.txt".data, contentType := "text/plain".data,
          size := 5, uploadedAt := 1, expiresAt := 1 + daysToMs 10 }]))
    ∧ (uploadHandler defaultConfig [sampleOwnedRecord] (some "0xAA".data)
        (some { name := "a.txt".data, size := 5, fileType := "text/plain".data })
        true 1 =
      (.uploadFailed, [sampleOwnedRecord])
      ∧ RouteResponse.uploadFailed ≠ .conflict) :=
  ⟨(C6_create_duplicate_is_generic_failure defaultConfig [] "0xAA".data
      { name := "a.txt".data, size := 5, fileType := "text/plain".data } 1
      (by decide)).2 (by decide),
   (C6_create_duplicate_is_generic_failure defaultConfig [sampleOwnedRecord]
      "0xAA".data
      { name := "a.txt".data, size := 5, fileType := "text/plain".data } 1
      (by decide)).1 (by decide)⟩

/-- C7: delete is idempotent — deleting an absent key is not an error (the
`DELETE` runs, changes nothing and reports zero changes), after a delete the
key is gone from the ledger, and a subsequent read of the deleted key is
answered 404 Not Found. -/
theorem C7_delete_idempotent
    (db : Ledger) (k : JsStr) (wallet sig : JsStr) (s3 : S3GetOutcome)
    (now : Nat) (habsent : getFile db k = none) :
    deleteRecord db k = (db, false)
    ∧ (∀ db0 : Ledger, getFile (deleteRecord db0 k).1 k = none)
    ∧ (∀ db0 : Ledger,
        (downloadHandler (deleteRecord db0 k).1 k (some wallet) (some sig)
          (.ok true) s3 now).1 = .fileNotFound) := by
  have hgone : ∀ db0 : Ledger, getFile (deleteRecord db0 k).1 k = none := by
    intro db0
    rw [getFile, List.find?_eq_none]
    intro r hr
    rw [deleteRecord] at hr
    simp only [List.mem_filter] at hr
    simpa using hr.2
  refine ⟨?_, hgone, ?_⟩
  · rw [getFile, List.find?_eq_none] at habsent
    unfold deleteRecord
    have h1 : List.filter (fun r => !(r.fileKey == k)) db = db := by
      rw [List.filter_eq_self]
      intro r hr
      simpa using habsent r hr
    have h2 : (List.any db fun r => r.fileKey == k) = false := by
      rw [List.any_eq_false]
      intro r hr
      simpa using habsent r hr
    rw [h1, h2]
  · intro db0
    simp [downloadHandler, hgone db0]

/-- C7 witness: deleting a key that is not in a one-record ledger returns the
ledger unchanged with zero changes, and reading `0xaa/1-a.txt` after deleting
it yields 404. -/
theorem C7_witness :
    deleteRecord [sampleOwnedRecord] "zzz".data = ([sampleOwnedRecord], false)
    ∧ (∀ db0 : Ledger, getFile (deleteRecord db0 "zzz".data).1 "zzz".data = none)
    ∧ (∀ db0 : Ledger,
        (downloadHandler (deleteRecord db0 "zzz".data).1 "zzz".data
          (some "0xaa".data) (some "sig".data) (.ok true) .missing 3).1 =
          .fileNotFound) :=
  C7_delete_idempotent [sampleOwnedRecord] "zzz".data "0xaa".data "sig".data
    .missing 3 (by decide)

/-- C8: on every signature-gated route, a signature verification that throws
(malformed signature or message) is caught and answered 401 — the same
outcome class as a signature that verifies `false` — with the ledger
untouched, and 401 is distinct from the 500 transport-failure class. -/
theorem C8_malformed_signature_maps_to_401
    (db : Ledger) (k : JsStr) (wallet sig : JsStr) (verify : VerifyOutcome)
    (s3 : S3GetOutcome) (s3Threw : Bool) (now : Nat)
    (hbad : verify = .threw ∨ verify = .ok false) :
    statusCode (downloadHandler db k (some wallet) (some sig) verify s3 now).1 = 401
    ∧ (downloadHandler db k (some wallet) (some sig) verify s3 now).2 = db
    ∧ statusCode (renewHandler db k (some wallet) (some sig) verify now).1 = 401
    ∧ (renewHandler db k (some wallet) (some sig) verify now).2 = db
    ∧ statusCode (listFilesHandler db (some wallet) (some sig) verify now) = 401
    ∧ statusCode (fileInfoHandler db k (some wallet) (some sig) verify now) = 401
    ∧ statusCode (deleteHandler db k (some wallet) (some sig) verify s3Threw).1 = 401
    ∧ (deleteHandler db k (some wallet) (some sig) verify s3Threw).2 = db
    ∧ statusCode .sigVerificationFailed = statusCode .invalidSignature
    ∧ statusCode .sigVerificationFailed ≠ statusCode .downloadFailed := by
  rcases hbad with h | h <;> subst h <;>
    simp [downloadHandler, renewHandler, listFilesHandler, fileInfoHandler,
      deleteHandler, statusCode]

/-- C8 witness: a throwing verification on a concrete ledger is answered 401
everywhere. -/
theorem C8_witness :
    statusCode (downloadHandler [sampleOwnedRecord] "0xaa/1-a.txt".data
      (some "0xaa".data) (some "badsig".data) .threw .missing 3).1 = 401
    ∧ (downloadHandler [sampleOwnedRecord] "0xaa/1-a.txt".data
        (some "0xaa".data) (some "badsig".data) .threw .missing 3).2 =
        [sampleOwnedRecord]
    ∧ statusCode (renewHandler [sampleOwnedRecord] "0xaa/1-a.txt".data
        (some "0xaa".data) (some "badsig".data) .threw 3).1 = 401
    ∧ (renewHandler [sampleOwnedRecord] "0xaa/1-a.txt".data
        (some "0xaa".data) (some "badsig".data) .threw 3).2 = [sampleOwnedRecord]
    ∧ statusCode (listFilesHandler [sampleOwnedRecord]
        (some "0xaa".data) (some "badsig".data) .threw 3) = 401
    ∧ statusCode (fileInfoHandler [sampleOwnedRecord] "0xaa/1-a.txt".data
        (some "0xaa".data) (some "badsig".data) .threw 3) = 401
    ∧ statusCode (deleteHandler [sampleOwnedRecord] "0xaa/1-a.txt".data
        (some "0xaa".data) (some "badsig".data) .threw false).1 = 401
    ∧ (deleteHandler [sampleOwnedRecord] "0xaa/1-a.txt".data
        (some "0xaa".data) (some "badsig".data) .threw false).2 =
        [sampleOwnedRecord]
    ∧ statusCode .sigVerificationFailed = statusCode .invalidSignature
    ∧ statusCode .sigVerificationFailed ≠ statusCode .downloadFailed :=
  C8_malformed_signature_maps_to_401 [sampleOwnedRecord] "0xaa/1-a.txt".data
    "0xaa".data "badsig".data .threw .missing false 3 (Or.inl rfl)

/-- Invariant maintained by the ledger: every stored owner address is a
fixpoint of lowercasing (it was lowercased on insert). -/
def ownersLowercased (db : Ledger) : Prop :=
  ∀ r ∈ db, jsToLower r.ownerAddress = r.ownerAddress

/-- C10: owners are lowercased at insert time, so on any ledger whose rows
were produced by `recordUpload` — captured by the `ownersLowercased`
invariant, which inserts preserve — `getFile` returns a lowercase owner,
`isOwner(key, a)` holds exactly when lowercase(a) equals the stored owner,
owner listing is insensitive to the casing of the queried address, and an
upload is found by `getFilesByOwner` under any casing of the owner used at
upload. -/
theorem C10_owner_stored_lowercase
    (db : Ledger) (inv : ownersLowercased db) :
    (∀ record db2, recordUpload db record = .ok db2 →
        db2 = db ++ [{ record with ownerAddress := jsToLower record.ownerAddress }]
        ∧ ownersLowercased db2)
    ∧ (∀ k r, getFile db k = some r → jsToLower r.ownerAddress = r.ownerAddress)
    ∧ (∀ k a, isOwner db k a = true ↔
        ∃ r, getFile db k = some r ∧ jsToLower a = r.ownerAddress)
    ∧ (∀ a1 a2, jsToLower a1 = jsToLower a2 →
        getFilesByOwner db a1 = getFilesByOwner db a2)
    ∧ (∀ record db2 a, recordUpload db record = .ok db2 →
        jsToLower a = jsToLower record.ownerAddress →
        { record with ownerAddress := jsToLower record.ownerAddress } ∈
          getFilesByOwner db2 a) := by
  have hok : ∀ record db2, recordUpload db record = .ok db2 →
      db2 = db ++ [{ record with ownerAddress := jsToLower record.ownerAddress }] := by
    intro record db2 h
    unfold recordUpload at h
    split at h
    · exact absurd h (by simp)
    · simpa using h.symm
  refine ⟨?_, ?_, ?_, ?_, ?_⟩
  · intro record db2 h
    have hdb2 := hok record db2 h
    refine ⟨hdb2, ?_⟩
    intro r hr
    rw [hdb2, List.mem_append] at hr
    rcases hr with hr | hr
    · exact inv r hr
    · rw [List.mem_singleton] at hr
      subst hr
      exact jsToLower_idem record.ownerAddress
  · intro k r h
    exact inv r (List.mem_of_find?_eq_some h)
  · intro k a
    unfold isOwner
    cases hg : getFile db k with
    | none => simp
    | some r =>
      have hlow : jsToLower r.ownerAddress = r.ownerAddress :=
        inv r (List.mem_of_find?_eq_some hg)
      show (jsToLower r.ownerAddress == jsToLower a) = true ↔ _
      rw [hlow]
      constructor
      · intro hbeq
        exact ⟨r, rfl, (eq_of_beq hbeq).symm⟩
      · rintro ⟨r', hr', howner⟩
        rw [Option.some.injEq] at hr'
        subst hr'
        rw [← howner]
        exact beq_self_eq_true (jsToLower a)
  · intro a1 a2 h
    unfold getFilesByOwner
    rw [h]
  · intro record db2 a h ha
    have hdb2 := hok record db2 h
    unfold getFilesByOwner
    rw [List.mem_insertionSort, List.mem_filter]
    constructor
    · rw [hdb2, List.mem_append]
      right
      exact List.mem_singleton.2 rfl
    · show (jsToLower record.ownerAddress == jsToLower a) = true
      rw [ha]
      exact beq_self_eq_true (jsToLower record.ownerAddress)

/-- C10 witness: on a one-record ledger, the `isOwner` characterization and
the casing-insensitive lookup after an upload with mixed-case owner
`0xAb`. -/
theorem C10_witness :
    (isOwner [sampleOwnedRecord] "0xaa/1-a.txt".data "0xAA".data = true ↔
      ∃ r, getFile [sampleOwnedRecord] "0xaa/1-a.txt".data = some r ∧
        jsToLower "0xAA".data = r.ownerAddress)
    ∧ ∀ db2, recordUpload [sampleOwnedRecord]
        { fileKey := "0xab/9-z.txt".data, ownerAddress := "0xAb".data,
          originalFilename := "z.txt".data, contentType := "text/plain".data,
          size := 9, uploadedAt := 9, expiresAt := 999 } = .ok db2 →
      { fileKey := "0xab/9-z.txt".data, ownerAddress := "0xab".data,
        originalFilename := "z.txt".data, contentType := "text/plain".data,
        size := 9, uploadedAt := 9, expiresAt := 999 } ∈
        getFilesByOwner db2 "0XAB".data :=
  ⟨(C10_owner_stored_lowercase [sampleOwnedRecord]
      (by unfold ownersLowercased; decide)).2.2.1
      "0xaa/1-a.txt".data "0xAA".data,
   fun db2 h =>
     (C10_owner_stored_lowercase [sampleOwnedRecord]
       (by unfold ownersLowercased; decide)).2.2.2.2
       { fileKey := "0xab/9-z.txt".data, ownerAddress := "0xAb".data,
         originalFilename := "z.txt".data, contentType := "text/plain".data,
         size := 9, uploadedAt := 9, expiresAt := 999 } db2 "0XAB".data h
       (by decide)⟩
